import Mathlib

/-!
Verification development for the DeliverEase conversational delivery
assistant.  The definitions below are a shallow embedding of the backend
code (`src/server.ts`, `src/llmHandler.ts`, `src/database.ts`,
`src/aiAssistant.ts`): the per-request `/api/chat` handler becomes the pure
step function `chatStep` over an explicit `ServerState`, with every external
effect (order store lookups and updates, the LLM intent resolver, the random
OTP draw, the WhatsApp notifier outcome) supplied as an oracle input `Ext`.
JavaScript `Date` values are modelled as a day index plus milliseconds
within the day; timestamps (`Date.now()`) are natural numbers of
milliseconds.
-/

namespace DeliverEase

/-- A JavaScript `Date`, modelled as a calendar day index (days since the
Unix epoch, possibly negative) together with the milliseconds elapsed within
that day.  `setDate(getDate() + i)` adds to `days`; `setHours(h, 0, 0, 0)`
replaces `msOfDay`. -/
structure DateM where
  days : Int
  msOfDay : Nat
  deriving DecidableEq, Repr

/-- Total milliseconds of a `DateM`, the measure by which two dates are
compared (a later date has a strictly larger value). -/
def DateM.toMs (d : DateM) : Int := d.days * 86400000 + (d.msOfDay : Int)

/-- Civil-calendar conversion (days since epoch to year, month, day), used
to embed `Date.prototype.toLocaleDateString`. -/
def civilFromDays (z0 : Int) : Int × Nat × Nat :=
  let z := z0 + 719468
  let era := z.fdiv 146097
  let doe := (z - era * 146097).toNat
  let yoe := (doe - doe / 1460 + doe / 36524 - doe / 146096) / 365
  let y : Int := (yoe : Int) + era * 400
  let doy := doe - (365 * yoe + yoe / 4 - yoe / 100)
  let mp := (5 * doy + 2) / 153
  let d := doy - (153 * mp + 2) / 5 + 1
  let m := if mp < 10 then mp + 3 else mp - 9
  (y + (if m ≤ 2 then 1 else 0), m, d)

def weekdayNames : List String := ["Sun", "Mon", "Tue", "Wed", "Thu", "Fri", "Sat"]

def monthNames : List String :=
  ["Jan", "Feb", "Mar", "Apr", "May", "Jun", "Jul", "Aug", "Sep", "Oct", "Nov", "Dec"]

/-- Day of week of a day index; the epoch day (1970-01-01) was a Thursday. -/
def weekdayIndex (days : Int) : Nat := ((days + 4).emod 7).toNat

/-- Embedding of `date.toLocaleDateString('en-US', { weekday: 'short',
month: 'short', day: 'numeric' })` from `generateRescheduleOptions`. -/
def formatShortDate (dt : DateM) : String :=
  let c := civilFromDays dt.days
  (weekdayNames.getD (weekdayIndex dt.days) "") ++ ", "
    ++ (monthNames.getD (c.2.1 - 1) "") ++ " " ++ toString c.2.2

/-- Embedding of `date.toLocaleDateString()` (en-US default `M/D/YYYY`). -/
def formatDateOnly (dt : DateM) : String :=
  let c := civilFromDays dt.days
  toString c.2.1 ++ "/" ++ toString c.2.2 ++ "/" ++ toString c.1

def pad2 (n : Nat) : String := if n < 10 then "0" ++ toString n else toString n

/-- Embedding of the time part of `date.toLocaleString()` (12-hour clock). -/
def formatTime12 (ms : Nat) : String :=
  let h := ms / 3600000
  let mi := ms / 60000 % 60
  let sec := ms / 1000 % 60
  let h12 := if h % 12 = 0 then 12 else h % 12
  toString h12 ++ ":" ++ pad2 mi ++ ":" ++ pad2 sec ++ " " ++ (if h < 12 then "AM" else "PM")

/-- Embedding of `date.toLocaleString()`. -/
def formatDateTime (dt : DateM) : String :=
  formatDateOnly dt ++ ", " ++ formatTime12 dt.msOfDay

/-- The `status` union of `DeliveryStatus` in `src/database.ts`. -/
inductive OrderStatus where
  | processing
  | shipped
  | inTransit
  | outForDelivery
  | delivered
  | delayed
  | rescheduled
  deriving DecidableEq, Repr

/-- The literal status strings of `src/database.ts`. -/
def statusText : OrderStatus → String
  | .processing => "Processing"
  | .shipped => "Shipped"
  | .inTransit => "In Transit"
  | .outForDelivery => "Out for Delivery"
  | .delivered => "Delivered"
  | .delayed => "Delayed"
  | .rescheduled => "Rescheduled"

/-- The `DeliveryStatus` record of `src/database.ts` (an order snapshot).
Optional fields become `Option`; the optional `rescheduled` flag is a `Bool`
(JavaScript `undefined` is falsy). -/
structure Order where
  awb : String
  status : OrderStatus
  lastUpdate : DateM
  estimatedDelivery : Option DateM := none
  scheduledDelivery : Option DateM := none
  delayReason : Option String := none
  customerName : Option String := none
  customerPhone : Option String := none
  rescheduled : Bool := false
  deriving DecidableEq, Repr

/-- `Database.canReschedule` from `src/database.ts`. -/
def canReschedule (o : Order) : Bool :=
  decide (o.status ≠ OrderStatus.delivered)
    && decide (o.status ≠ OrderStatus.outForDelivery)
    && !o.rescheduled

/-- The `RescheduleOption` interface of `src/llmHandler.ts`. -/
structure RescheduleOption where
  date : DateM
  display : String
  deriving DecidableEq, Repr

/-- The slot-type array `['Morning', 'Afternoon', 'Evening']` of
`generateRescheduleOptions`. -/
def slotNames : List String := ["Morning", "Afternoon", "Evening"]

/-- The `setHours` calls of `generateRescheduleOptions`: Morning 09:00,
Afternoon 13:00, Evening 18:00; an unmatched slot type would leave the time
of day inherited from the base date. -/
def slotTimeMs (slotType : String) (baseMs : Nat) : Nat :=
  if slotType = "Morning" then 9 * 3600000
  else if slotType = "Afternoon" then 13 * 3600000
  else if slotType = "Evening" then 18 * 3600000
  else baseMs

/-- One iteration of the loop of `generateRescheduleOptions` for offset `i`. -/
def mkRescheduleOption (baseDate : DateM) (i : Nat) : RescheduleOption :=
  let slotType := slotNames.getD (i % 3) ""
  let date : DateM := ⟨baseDate.days + (i : Int), slotTimeMs slotType baseDate.msOfDay⟩
  ⟨date, formatShortDate date ++ " | " ++ slotType⟩

/-- `generateRescheduleOptions` from `src/llmHandler.ts`: one option per day
offset 1, 2, 3 from the base date, with the loop `for (let i = 1; i <= 3; i++)`
unrolled. -/
def generateRescheduleOptions (baseDate : DateM) : List RescheduleOption :=
  [mkRescheduleOption baseDate 1, mkRescheduleOption baseDate 2, mkRescheduleOption baseDate 3]

/-- `formatOrderDetails` from `src/llmHandler.ts`. -/
def formatOrderDetails (o : Order) : String :=
  String.intercalate "\n"
    (["AWB: " ++ o.awb,
      "Status: " ++ statusText o.status,
      "Est. Delivery: " ++ (match o.estimatedDelivery with
        | some d => formatDateOnly d
        | none => "N/A")]
      ++ (match o.scheduledDelivery with
        | some d => ["Scheduled Delivery: " ++ formatDateTime d]
        | none => [])
      ++ ["Last Updated: " ++ formatDateTime o.lastUpdate,
          if o.rescheduled then "(Rescheduled)" else ""])

/-- The `LLMResponse` type of `src/llmHandler.ts`; optional boolean fields
become `Option Bool` (absent = `none`). -/
structure LLMResponse where
  response : String
  nextState : String
  requiresAwb : Option Bool := none
  requiresReschedule : Option Bool := none
  showDetails : Option Bool := none
  endConversation : Option Bool := none
  deriving DecidableEq, Repr

/-- Oracle for one call to the LLM intent resolver (`handleLlmRequest`):
either the transport/parse call throws (`failure`, the `catch` branch), or it
returns no tool call, or a `get_order_info` / `handle_conversation` tool call
with its parsed arguments, or a tool call with an unknown name. -/
inductive LlmCall where
  | failure
  | noToolCall
  | getOrderInfo (action : String)
  | handleConversation (convType : String)
  | unknownTool
  deriving DecidableEq, Repr

/-- `handleGreeting` from `src/llmHandler.ts`. -/
def handleGreeting : LLMResponse :=
  { response := "Hello! How can I help with your delivery?", nextState := "INITIAL" }

/-- `handleFarewell` from `src/llmHandler.ts`. -/
def handleFarewell : LLMResponse :=
  { response := "Thank you! Have a great day!", nextState := "COMPLETED",
    endConversation := some true }

/-- `handleOrderAction` from `src/llmHandler.ts`. -/
def handleOrderAction (action : String) (order : Option Order) : LLMResponse :=
  match order with
  | none =>
    { response := "I'd be happy to help track your order! Could you share your tracking number with me?",
      requiresAwb := some true, nextState := "AWAITING_AWB" }
  | some o =>
    if action = "status" then
      { response := "Your order " ++ o.awb ++ " is currently: " ++ statusText o.status ++ ".",
        nextState := "ORDER_FOUND" }
    else if action = "details" then
      { response := "Here are your order details:", showDetails := some true,
        nextState := "ORDER_FOUND" }
    else if action = "reschedule" then
      if !canReschedule o then
        { response := "I'm sorry, but this order can't be rescheduled right now.",
          nextState := "ORDER_FOUND" }
      else
        { response := "Sure, I can help with that! Here are some available slots:",
          requiresReschedule := some true, nextState := "RESCHEDULE_OPTIONS" }
    else
      { response := "How else can I help with your order?", nextState := "ORDER_FOUND" }

/-- `handleLlmRequest` from `src/llmHandler.ts`, with the OpenAI call's
outcome supplied as the `call` oracle.  A transport or JSON-parse error is
the `catch` branch; a reply without a tool call keeps the current state. -/
def handleLlmRequest (_userInput currentState : String) (order : Option Order)
    (call : LlmCall) : LLMResponse :=
  match call with
  | .failure =>
    { response := "I'm having some trouble right now. Could you try again in a moment?",
      nextState := "INITIAL" }
  | .noToolCall =>
    { response := "How can I help with your delivery today?", nextState := currentState }
  | .getOrderInfo action => handleOrderAction action order
  | .handleConversation convType =>
    if convType = "greeting" then handleGreeting else handleFarewell
  | .unknownTool =>
    { response := "How can I assist with your delivery?", nextState := "INITIAL" }

/-- A session record of the `sessions` map in `src/server.ts`.  The optional
fields `otp`, `otpTimestamp` become `Option`; `otpVerified` (optional
boolean, `undefined` falsy) becomes a `Bool`. -/
structure Session where
  conversationState : String
  currentOrder : Option Order
  rescheduleOptions : List RescheduleOption
  lastActive : Nat
  otp : Option String := none
  otpTimestamp : Option Nat := none
  otpVerified : Bool := false
  deriving DecidableEq, Repr

/-- The JSON reply of `/api/chat`.  Fields that a given path does not set
are `none` (absent in the serialized reply; a JavaScript `null` value is
also modelled as `none`). -/
structure ChatResponse where
  response : String
  conversationState : String
  requiresReschedule : Option Bool := none
  requiresAwb : Option Bool := none
  showDetails : Option Bool := none
  endConversation : Option Bool := none
  requiresOtp : Option Bool := none
  sessionExpired : Option Bool := none
  orderDetails : Option String := none
  rescheduleOptions : Option (List String) := none
  whatsappSent : Option Bool := none
  deriving DecidableEq, Repr

/-- Oracle for the external effects of one `/api/chat` request:
`getOrder` is `db.getOrderStatus` for the AWB-extraction lookup,
`rescheduleSuccess` the boolean result of `db.rescheduleOrder`,
`refreshedOrder` the `db.getOrderStatus` re-fetch after a successful
reschedule, `otpRand` the `Math.random()` draw behind the OTP (reduced mod
900000), `nowDate` the value of `new Date()` (fallback base date), `llm`
the intent-resolver outcome and `notifierOk` whether the best-effort
WhatsApp send succeeded. -/
structure Ext where
  getOrder : String → Option Order
  rescheduleSuccess : Bool := false
  refreshedOrder : Option Order := none
  otpRand : Nat := 0
  nowDate : DateM := ⟨0, 0⟩
  llm : LlmCall := .noToolCall
  notifierOk : Bool := true

/-- Modelled from the spec: the Notifier adapter `sendWhatsAppUpdate` of
`src/whatsappNotifier.ts` (its implementation file is not part of the staged
sources; only its callers are).  Per the spec it is best-effort and never
throws into the caller, so it has no effect on session state whatever its
outcome. -/
def sendWhatsAppUpdate (_phone _message : String) (_ok : Bool) : Unit := ()

/-- Session expiration constant of `src/server.ts`: 2 minutes in ms. -/
def SESSION_EXPIRATION : Nat := 2 * 60 * 1000

/-- The OTP validity window used by the verification branch: 2 minutes. -/
def OTP_WINDOW : Nat := 2 * 60 * 1000

/-- JavaScript `String.prototype.trim`: strip leading and trailing
whitespace. -/
def jsTrim (s : String) : String :=
  String.mk (((s.toList.dropWhile Char.isWhitespace).reverse.dropWhile
    Char.isWhitespace).reverse)

/-- The regular expression test `/^\d{6}$/.test(s)`. -/
def isSixDigits (s : String) : Bool :=
  s.toList.length = 6 && s.toList.all Char.isDigit

def digitsToNat (ds : List Char) : Nat :=
  ds.foldl (fun a c => a * 10 + (c.toNat - 48)) 0

/-- JavaScript `parseInt` on an already trimmed string (decimal): an
optional sign followed by the longest digit prefix; `none` is `NaN`. -/
def parseIntJS (s : String) : Option Int :=
  let cs := s.toList
  let p : Int × List Char :=
    match cs with
    | '-' :: r => (-1, r)
    | '+' :: r => (1, r)
    | r => (1, r)
  let ds := p.2.takeWhile Char.isDigit
  if ds.isEmpty then none else some (p.1 * (digitsToNat ds : Int))

/-- A word character for the `\b` boundary of the AWB regex. -/
def isWordChar (c : Char) : Bool := c.isAlphanum || c = '_'

/-- Helper for `extractAWB`: try to match `AWB\d{6}\b` (case-insensitive)
at the head of the character list, returning the six digits. -/
def awbAt : List Char → Option (List Char)
  | a :: w :: b :: rest =>
    if a.toLower = 'a' && w.toLower = 'w' && b.toLower = 'b' then
      let ds := rest.take 6
      let tail := rest.drop 6
      if ds.length = 6 && ds.all Char.isDigit
          && (match tail with | [] => true | t :: _ => !isWordChar t) then
        some ds
      else none
    else none
  | _ => none

/-- Scan for the first position with a word boundary before it where the
AWB pattern matches. -/
def awbScan : Option Char → List Char → Option String
  | _, [] => none
  | prev, c :: rest =>
    let boundaryOk := match prev with
      | none => true
      | some p => !isWordChar p
    if boundaryOk then
      match awbAt (c :: rest) with
      | some ds => some ("AWB" ++ String.mk ds)
      | none => awbScan (some c) rest
    else awbScan (some c) rest

/-- `extractAWB` from `src/server.ts`: `input.match(/\bAWB\d{6}\b/i)`,
uppercased (the digits are unchanged, the letters become `AWB`). -/
def extractAWB (input : String) : Option String :=
  awbScan none input.toList

def digitChar (d : Nat) : Char := Char.ofNat (48 + d)

/-- The OTP generation `Math.floor(100000 + Math.random() * 900000).toString()`
of `src/server.ts`: the random draw is the oracle `r`; the resulting number
lies in `[100000, 999999]`, whose decimal string is its six digits written
positionally. -/
def otpString (r : Nat) : String :=
  let n := 100000 + r % 900000
  String.mk [digitChar (n / 100000 % 10), digitChar (n / 10000 % 10),
    digitChar (n / 1000 % 10), digitChar (n / 100 % 10),
    digitChar (n / 10 % 10), digitChar (n % 10)]

/-- The fixed session-expired reply of `src/server.ts`. -/
def expiredReply : ChatResponse :=
  { response := "Your session has expired due to inactivity. Please start a new conversation to continue.",
    conversationState := "SESSION_EXPIRED",
    requiresReschedule := some false, requiresAwb := some false,
    showDetails := some false, endConversation := some true,
    sessionExpired := some true }

/-- Result of one non-terminal processing stage: either a reply was
returned, or processing continues with the (possibly updated) session. -/
inductive StageRes where
  | reply (s : Session) (r : ChatResponse)
  | cont (s : Session)

/-- Truthiness of `order?.customerPhone` (an empty string is falsy). -/
def phoneTruthy : Option Order → Bool
  | some o => match o.customerPhone with
    | some p => p ≠ ""
    | none => false
  | none => false

/-- The reply of the successful OTP verification branch. -/
def otpSuccessReply : ChatResponse :=
  { response := "Verification successful! You can now access your order details.",
    conversationState := "ORDER_FOUND", requiresOtp := some false }

/-- The reply of the failed (wrong or expired) OTP verification branch. -/
def otpFailReply : ChatResponse :=
  { response := "Verification unsuccessful, try again later.",
    conversationState := "INITIAL", requiresOtp := some false }

/-- The reply re-prompting for a 6-digit OTP. -/
def otpRepromptReply : ChatResponse :=
  { response := "Please enter the 6-digit OTP sent to your WhatsApp number.",
    conversationState := "AWAITING_OTP", requiresOtp := some true }

/-- The reply issued together with a fresh OTP after an AWB lookup. -/
def otpIssueReply : ChatResponse :=
  { response := "For your security, please enter the 6-digit OTP sent to your WhatsApp number to access your order details.",
    conversationState := "AWAITING_OTP", requiresOtp := some true }

/-- The verification-gate reply blocking order access until OTP entry. -/
def verifyGateReply : ChatResponse :=
  { response := "Please complete OTP verification to access your order details.",
    conversationState := "AWAITING_OTP", requiresOtp := some true }

/-- The reply when `db.rescheduleOrder` reports failure. -/
def rescheduleFailReply : ChatResponse :=
  { response := "Failed to reschedule. Please try again later.",
    conversationState := "ORDER_FOUND",
    requiresReschedule := some false, requiresAwb := some false,
    showDetails := some false, endConversation := some false }

/-- The slot-range correction reply (`n` is the current option count). -/
def rangeReply (n : Nat) : ChatResponse :=
  { response := "Please enter a number between 1 and " ++ toString n ++ ".",
    conversationState := "RESCHEDULE_OPTIONS",
    requiresReschedule := some false, requiresAwb := some false,
    showDetails := some false, endConversation := some false }

/-- The successful-reschedule reply for a selected option and the re-fetched
order. -/
def rescheduledReply (selected : RescheduleOption) (refreshed : Option Order) :
    ChatResponse :=
  { response := "Your order has been rescheduled to " ++ selected.display ++ ".",
    orderDetails := refreshed.map formatOrderDetails,
    whatsappSent := some (phoneTruthy refreshed),
    conversationState := "ORDER_FOUND",
    requiresReschedule := some false, requiresAwb := some false,
    showDetails := some true, endConversation := some false }

/-- The OTP acceptance condition: `session.otp && session.otpTimestamp &&
now - session.otpTimestamp <= 2 * 60 * 1000 && message.trim() === session.otp`. -/
def otpCheck (session : Session) (message : String) (now : Nat) : Bool :=
  match session.otp, session.otpTimestamp with
  | some code, some ts =>
    decide (now - ts ≤ OTP_WINDOW) && (jsTrim message = code : Bool)
  | _, _ => false

/-- The OTP verification branch of `/api/chat` (`src/server.ts`, the block
guarded by `conversationState === 'AWAITING_OTP' && !otpVerified`): `none`
when the branch is not taken. -/
def otpGate (session : Session) (message : String) (now : Nat) :
    Option (Session × ChatResponse) :=
  if session.conversationState = "AWAITING_OTP" && !session.otpVerified then
    if isSixDigits (jsTrim message) then
      if otpCheck session message now then
        some ({ session with otpVerified := true, conversationState := "ORDER_FOUND" },
          otpSuccessReply)
      else
        some ({ session with
                  otp := none, otpTimestamp := none,
                  otpVerified := false, conversationState := "INITIAL" },
          otpFailReply)
    else
      some (session, otpRepromptReply)
  else none

/-- The slot-number validation `!isNaN(slotNumber) && slotNumber >= 1 &&
slotNumber <= session.rescheduleOptions.length` of the slot-selection
branch: `some` is a valid selection, `none` is unparsable or out of range. -/
def slotValid (session : Session) (message : String) : Option Int :=
  match parseIntJS (jsTrim message) with
  | some k =>
    if 1 ≤ k ∧ k ≤ (session.rescheduleOptions.length : Int) then some k else none
  | none => none

/-- The slot-selection branch of `/api/chat` (state `RESCHEDULE_OPTIONS`
with non-empty options).  A valid slot number with a current order updates
the store (outcome `ext.rescheduleSuccess`); a valid number without a
current order falls through to the rest of the handler, mirroring the
missing `else` of `if (session.currentOrder)` in the source. -/
def slotStage (session : Session) (message : String) (ext : Ext) : StageRes :=
  if session.conversationState = "RESCHEDULE_OPTIONS"
      && !session.rescheduleOptions.isEmpty then
    match slotValid session message with
    | some k =>
      let selectedOption := session.rescheduleOptions.getD (k.toNat - 1) ⟨⟨0, 0⟩, ""⟩
      match session.currentOrder with
      | some _ =>
        if ext.rescheduleSuccess then
          let refreshed := ext.refreshedOrder
          .reply { session with
                     currentOrder := refreshed,
                     rescheduleOptions := [], conversationState := "ORDER_FOUND" }
            (rescheduledReply selectedOption refreshed)
        else
          .reply session rescheduleFailReply
      | none => .cont session
    | none => .reply session (rangeReply session.rescheduleOptions.length)
  else .cont session

/-- The AWB-extraction stage of `/api/chat`: on a fresh order hit with an
unverified session, issue a new OTP and reply; otherwise continue with the
possibly refreshed current order.  The source also awaits
`sendWhatsAppUpdate` here, which has no effect on session state whatever
its outcome (`ext.notifierOk`). -/
def awbStage (session : Session) (message : String) (now : Nat) (ext : Ext) : StageRes :=
  match extractAWB message with
  | some awb =>
    match ext.getOrder awb with
    | some freshOrder =>
      if !session.otpVerified then
        .reply { session with
                   currentOrder := some freshOrder,
                   otp := some (otpString ext.otpRand),
                   otpTimestamp := some now, conversationState := "AWAITING_OTP" }
          otpIssueReply
      else .cont { session with currentOrder := some freshOrder }
    | none => .cont session
  | none => .cont session

/-- The final dispatch of `/api/chat`: `aiAssistant.handleUserMessage`
(which forwards to `handleLlmRequest` with the globally shared assistant
state as the current state and installs the returned `nextState` there),
then reschedule-option generation and the reply assembly. -/
def dispatchStage (session : Session) (assistantState message : String) (ext : Ext) :
    Session × String × ChatResponse :=
  let llmResp := handleLlmRequest message assistantState session.currentOrder ext.llm
  let assistantState := llmResp.nextState
  let session := { session with conversationState := assistantState }
  let rescheduleOptions : List RescheduleOption :=
    if llmResp.requiresReschedule = some true ∧ session.currentOrder.isSome then
      generateRescheduleOptions
        ((session.currentOrder.bind (·.estimatedDelivery)).getD ext.nowDate)
    else []
  let session :=
    if llmResp.requiresReschedule = some true ∧ session.currentOrder.isSome then
      { session with rescheduleOptions := rescheduleOptions }
    else session
  (session, assistantState,
    { response := llmResp.response,
      conversationState := session.conversationState,
      requiresReschedule := llmResp.requiresReschedule,
      requiresAwb := llmResp.requiresAwb,
      showDetails := llmResp.showDetails,
      endConversation := llmResp.endConversation,
      orderDetails :=
        match llmResp.showDetails, session.currentOrder with
        | some true, some o => some (formatOrderDetails o)
        | _, _ => none,
      rescheduleOptions :=
        if llmResp.requiresReschedule = some true ∧ !rescheduleOptions.isEmpty then
          some (rescheduleOptions.map (·.display))
        else none })

/-- Per-message processing of a resolved, non-expired session: the body of
`/api/chat` from the OTP-verification block to the reply assembly, in the
source's order (OTP gate, slot selection, AWB extraction and OTP issuance,
verification gate, intent dispatch).  Returns the updated session, the
updated shared assistant state, and the reply. -/
def processSession (session : Session) (assistantState message : String) (now : Nat)
    (ext : Ext) : Session × String × ChatResponse :=
  match otpGate session message now with
  | some r => (r.1, assistantState, r.2)
  | none =>
    match slotStage session message ext with
    | .reply s resp => (s, assistantState, resp)
    | .cont s1 =>
      match awbStage s1 message now ext with
      | .reply s resp => (s, assistantState, resp)
      | .cont s2 =>
        if s2.currentOrder.isSome && !s2.otpVerified then
          (s2, assistantState, verifyGateReply)
        else dispatchStage s2 assistantState message ext

/-- The whole server-side mutable state: the `sessions` map (association
list), the `expiredSessions` set (list without duplicates) and the globally
shared `aiAssistant.conversationState`. -/
structure ServerState where
  sessions : List (String × Session)
  expiredSessions : List String
  assistantState : String

def lookupSession (l : List (String × Session)) (sid : String) : Option Session :=
  (l.find? (fun p => p.1 = sid)).map (·.2)

/-- `sessions.set(sid, s)`: replace in place, or append. -/
def setSession (l : List (String × Session)) (sid : String) (s : Session) :
    List (String × Session) :=
  if (l.find? (fun p => p.1 = sid)).isSome then
    l.map (fun p => if p.1 = sid then (sid, s) else p)
  else l ++ [(sid, s)]

def eraseSession (l : List (String × Session)) (sid : String) :
    List (String × Session) :=
  l.filter (fun p => p.1 ≠ sid)

/-- `expiredSessions.add(sid)` (set semantics). -/
def insertExpired (e : List String) (sid : String) : List String :=
  if e.contains sid then e else sid :: e

/-- A freshly created session (`src/server.ts`, the `!session` branch). -/
def freshSession (now : Nat) : Session :=
  { conversationState := "INITIAL", currentOrder := none, rescheduleOptions := [],
    lastActive := now, otpVerified := false }

/-- One `/api/chat` request with a session id present (`src/server.ts`,
the handler body): known-expired check, session resolution with idle-expiry,
then `processSession`.  `now` is `Date.now()` at request arrival. -/
def chatStep (st : ServerState) (sessionId message : String) (now : Nat) (ext : Ext) :
    ServerState × ChatResponse :=
  if st.expiredSessions.contains sessionId then (st, expiredReply)
  else
    match lookupSession st.sessions sessionId with
    | none =>
      let r := processSession (freshSession now) st.assistantState message now ext
      ({ st with sessions := setSession st.sessions sessionId r.1,
                 assistantState := r.2.1 }, r.2.2)
    | some session =>
      if now - session.lastActive > SESSION_EXPIRATION then
        ({ st with sessions := eraseSession st.sessions sessionId,
                   expiredSessions := insertExpired st.expiredSessions sessionId },
          expiredReply)
      else
        let r := processSession { session with lastActive := now }
          st.assistantState message now ext
        ({ st with sessions := setSession st.sessions sessionId r.1,
                   assistantState := r.2.1 }, r.2.2)

/-- `cleanupExpiredSessions` from `src/server.ts` (the 60-second sweep):
first move idle sessions to the expired set, then drop from the expired set
every id whose session is gone (`!session`) or idle over five minutes
(`session.lastActive` is truthy only when non-zero). -/
def cleanupExpiredSessions (st : ServerState) (now : Nat) : ServerState :=
  let isStale : String × Session → Bool :=
    fun p => decide (now - p.2.lastActive > SESSION_EXPIRATION)
  let stale := st.sessions.filter isStale
  let live := st.sessions.filter (fun p => !isStale p)
  let expired1 := stale.foldl (fun e p => insertExpired e p.1) st.expiredSessions
  let expired2 := expired1.filter (fun sid =>
    match lookupSession live sid with
    | none => false
    | some s => !(decide (s.lastActive ≠ 0) && decide (now - s.lastActive > 5 * 60 * 1000)))
  { st with sessions := live, expiredSessions := expired2 }

/-- `/api/reset-session/:sessionId` (the session-map effects). -/
def resetSession (st : ServerState) (sid : String) : ServerState :=
  { st with sessions := eraseSession st.sessions sid,
            expiredSessions := st.expiredSessions.filter (· ≠ sid) }

/-- The state at server start: no sessions, no expired ids, assistant state
`INITIAL` (the `AIAssistant` field initializer). -/
def initialState : ServerState :=
  { sessions := [], expiredSessions := [], assistantState := "INITIAL" }

/-- States of the server reachable from start by chat requests, sweep runs
and session resets. -/
inductive Reachable : ServerState → Prop where
  | init : Reachable initialState
  | chat (sid msg : String) (now : Nat) (ext : Ext) {st : ServerState} :
      Reachable st → Reachable (chatStep st sid msg now ext).1
  | sweep (now : Nat) {st : ServerState} :
      Reachable st → Reachable (cleanupExpiredSessions st now)
  | reset (sid : String) {st : ServerState} :
      Reachable st → Reachable (resetSession st sid)

/-- Invariant of every stored session: pending reschedule options exist
only in an OTP-verified session with a current order. -/
def SessionInv (s : Session) : Prop :=
  s.rescheduleOptions ≠ [] → (s.otpVerified = true ∧ s.currentOrder.isSome = true)

instance (s : Session) : Decidable (SessionInv s) := by
  unfold SessionInv; infer_instance

/-- The session a stage result carries. -/
def stageSession : StageRes → Session
  | .reply s _ => s
  | .cont s => s

/-- The canned responses a session that is not OTP-verified can receive:
none of them embeds order data. -/
def cannedUnverifiedResponses : List String :=
  [expiredReply.response, otpSuccessReply.response, otpFailReply.response,
    otpRepromptReply.response, otpIssueReply.response, verifyGateReply.response,
    "I'm having some trouble right now. Could you try again in a moment?",
    "How can I help with your delivery today?",
    "How can I assist with your delivery?",
    "I'd be happy to help track your order! Could you share your tracking number with me?",
    "Hello! How can I help with your delivery?",
    "Thank you! Have a great day!"]

/-- Invariant of the whole server state: every stored session satisfies
`SessionInv`. -/
def StInv (st : ServerState) : Prop := ∀ p ∈ st.sessions, SessionInv p.2

/-- An `Ext` oracle with no orders, store failure and a silent resolver. -/
def extNone : Ext := { getOrder := fun _ => none }

/-- The session used by the C2 witness: `AWAITING_OTP`, code 123456 issued
at time 0. -/
def sessC2 : Session :=
  { conversationState := "AWAITING_OTP", currentOrder := none,
    rescheduleOptions := [], lastActive := 0, otp := some "123456",
    otpTimestamp := some 0, otpVerified := false }

/-- The stored session of the C3 witness (last active at 100 ms). -/
def sessC3 : Session :=
  { conversationState := "INITIAL", currentOrder := none,
    rescheduleOptions := [], lastActive := 100, otpVerified := false }

/-- The server state of the C3 witness. -/
def stC3 : ServerState :=
  { sessions := [("X", sessC3)], expiredSessions := [], assistantState := "INITIAL" }

/-- C5 counterexample data: in `RESCHEDULE_OPTIONS` with 3 pending options
and a current order. -/
def ordC5 : Order :=
  { awb := "AWB222222", status := .inTransit, lastUpdate := ⟨20000, 0⟩,
    estimatedDelivery := some ⟨20010, 0⟩ }

def sessC5 : Session :=
  { conversationState := "RESCHEDULE_OPTIONS", currentOrder := some ordC5,
    rescheduleOptions := generateRescheduleOptions ⟨20010, 0⟩, lastActive := 0,
    otpVerified := true }

/-- An oracle with a successful store update for the C5 witness. -/
def extC5 : Ext :=
  { getOrder := fun _ => none, rescheduleSuccess := true,
    refreshedOrder := some { ordC5 with status := .rescheduled, rescheduled := true } }

/-- The order and oracle of the C6 counterexample. -/
def ordC6 : Order :=
  { awb := "AWB333333", status := .shipped, lastUpdate := ⟨20000, 0⟩,
    customerPhone := some "+911234" }

def extC6 : Ext :=
  { getOrder := fun a => if a = "AWB333333" then some ordC6 else none, otpRand := 7 }

/-- A session already awaiting an OTP (issued at time 0, unverified). -/
def sessC6 : Session :=
  { conversationState := "AWAITING_OTP", currentOrder := some ordC6,
    rescheduleOptions := [], lastActive := 0, otp := some "999999",
    otpTimestamp := some 0, otpVerified := false }

/-- The two orders of the C7 counterexample trace: an eligible in-transit
order for session A and a delivered (ineligible) order for session B. -/
def ordC7A : Order :=
  { awb := "AWB111111", status := .inTransit, lastUpdate := ⟨20000, 0⟩,
    estimatedDelivery := some ⟨20010, 0⟩ }

def ordC7B : Order :=
  { awb := "AWB444444", status := .delivered, lastUpdate := ⟨20000, 0⟩ }

def extC7get : String → Option Order := fun a =>
  if a = "AWB111111" then some ordC7A
  else if a = "AWB444444" then some ordC7B
  else none

def extC7a : Ext := { getOrder := extC7get, otpRand := 23456 }

def extC7r : Ext := { extC7a with llm := .getOrderInfo "reschedule" }

def extC7n : Ext := { extC7a with llm := .noToolCall }

/-- Six requests from the initial state: session A tracks an eligible
order, verifies, and is offered reschedule slots (setting the globally
shared assistant state to `RESCHEDULE_OPTIONS`); session B tracks the
delivered order, verifies, and then sends small talk answered with no tool
call. -/
def stC7 : ServerState :=
  (chatStep (chatStep (chatStep (chatStep (chatStep (chatStep initialState
    "A" "AWB111111" 0 extC7a).1
    "A" "123456" 1 extC7a).1
    "A" "reschedule" 2 extC7r).1
    "B" "AWB444444" 3 extC7a).1
    "B" "123456" 4 extC7a).1
    "B" "hello" 5 extC7n).1

/-- The stored session of the C10 record: last active at 1000 ms. -/
def sessC10 : Session :=
  { conversationState := "INITIAL", currentOrder := none,
    rescheduleOptions := [], lastActive := 1000, otpVerified := false }

def stC10 : ServerState :=
  { sessions := [("X", sessC10)], expiredSessions := [], assistantState := "INITIAL" }

/-! Stage equations: one lemma per control-flow branch of the handler,
used to drive the claim proofs. -/

theorem otpGate_none (s : Session) (m : String) (now : Nat)
    (h : s.conversationState ≠ "AWAITING_OTP" ∨ s.otpVerified = true) :
    otpGate s m now = none := by
  unfold otpGate
  rcases h with h | h <;> simp [h]

theorem otpGate_cases (s : Session) (m : String) (now : Nat) (s' : Session)
    (r : ChatResponse) (h : otpGate s m now = some (s', r)) :
    s.conversationState = "AWAITING_OTP" ∧ s.otpVerified = false ∧
      ((s' = { s with otpVerified := true, conversationState := "ORDER_FOUND" }
          ∧ r = otpSuccessReply)
        ∨ (s' = { s with
                    otp := none, otpTimestamp := none,
                    otpVerified := false, conversationState := "INITIAL" }
            ∧ r = otpFailReply)
        ∨ (s' = s ∧ r = otpRepromptReply)) := by
  unfold otpGate at h
  split at h
  · next hc =>
    simp only [Bool.and_eq_true, decide_eq_true_eq, Bool.not_eq_true'] at hc
    refine ⟨hc.1, hc.2, ?_⟩
    split at h
    · split at h
      · simp only [Option.some.injEq, Prod.mk.injEq] at h
        exact Or.inl ⟨h.1.symm, h.2.symm⟩
      · simp only [Option.some.injEq, Prod.mk.injEq] at h
        exact Or.inr (Or.inl ⟨h.1.symm, h.2.symm⟩)
    · simp only [Option.some.injEq, Prod.mk.injEq] at h
      exact Or.inr (Or.inr ⟨h.1.symm, h.2.symm⟩)
  · exact absurd h (by simp)

theorem otpGate_success_eq (s : Session) (m : String) (now : Nat)
    (hst : s.conversationState = "AWAITING_OTP") (hv : s.otpVerified = false)
    (hsix : isSixDigits (jsTrim m) = true) (hchk : otpCheck s m now = true) :
    otpGate s m now =
      some ({ s with otpVerified := true, conversationState := "ORDER_FOUND" },
        otpSuccessReply) := by
  unfold otpGate
  simp [hst, hv, hsix, hchk]

theorem otpGate_fail_eq (s : Session) (m : String) (now : Nat)
    (hst : s.conversationState = "AWAITING_OTP") (hv : s.otpVerified = false)
    (hsix : isSixDigits (jsTrim m) = true) (hchk : otpCheck s m now = false) :
    otpGate s m now =
      some ({ s with
                otp := none, otpTimestamp := none,
                otpVerified := false, conversationState := "INITIAL" },
        otpFailReply) := by
  unfold otpGate
  simp [hst, hv, hsix, hchk]

theorem otpGate_reprompt_eq (s : Session) (m : String) (now : Nat)
    (hst : s.conversationState = "AWAITING_OTP") (hv : s.otpVerified = false)
    (hsix : isSixDigits (jsTrim m) = false) :
    otpGate s m now = some (s, otpRepromptReply) := by
  unfold otpGate
  simp [hst, hv, hsix]

theorem slotStage_skip (s : Session) (m : String) (ext : Ext)
    (h : s.conversationState ≠ "RESCHEDULE_OPTIONS" ∨ s.rescheduleOptions = []) :
    slotStage s m ext = .cont s := by
  unfold slotStage
  rcases h with h | h <;> simp [h]

theorem slotStage_range_eq (s : Session) (m : String) (ext : Ext)
    (hst : s.conversationState = "RESCHEDULE_OPTIONS")
    (hne : s.rescheduleOptions ≠ [])
    (hval : slotValid s m = none) :
    slotStage s m ext = .reply s (rangeReply s.rescheduleOptions.length) := by
  unfold slotStage
  simp [hst, hne, hval, List.isEmpty_iff]

theorem slotStage_noOrder_eq (s : Session) (m : String) (ext : Ext)
    (hst : s.conversationState = "RESCHEDULE_OPTIONS")
    (hne : s.rescheduleOptions ≠ [])
    (hval : slotValid s m = some k) (hord : s.currentOrder = none) :
    slotStage s m ext = .cont s := by
  unfold slotStage
  simp [hst, hne, hval, hord, List.isEmpty_iff]

theorem slotStage_success_eq (s : Session) (m : String) (ext : Ext) (k : Int)
    (hst : s.conversationState = "RESCHEDULE_OPTIONS")
    (hne : s.rescheduleOptions ≠ [])
    (hval : slotValid s m = some k) (hord : s.currentOrder.isSome = true)
    (hsucc : ext.rescheduleSuccess = true) :
    slotStage s m ext =
      .reply { s with
                 currentOrder := ext.refreshedOrder,
                 rescheduleOptions := [], conversationState := "ORDER_FOUND" }
        (rescheduledReply (s.rescheduleOptions.getD (k.toNat - 1) ⟨⟨0, 0⟩, ""⟩)
          ext.refreshedOrder) := by
  unfold slotStage
  rcases ho : s.currentOrder with _ | o
  · rw [ho] at hord; simp at hord
  · simp [hst, hne, hval, ho, hsucc, List.isEmpty_iff]

theorem slotStage_fail_eq (s : Session) (m : String) (ext : Ext) (k : Int)
    (hst : s.conversationState = "RESCHEDULE_OPTIONS")
    (hne : s.rescheduleOptions ≠ [])
    (hval : slotValid s m = some k) (hord : s.currentOrder.isSome = true)
    (hsucc : ext.rescheduleSuccess = false) :
    slotStage s m ext = .reply s rescheduleFailReply := by
  unfold slotStage
  rcases ho : s.currentOrder with _ | o
  · rw [ho] at hord; simp at hord
  · simp [hst, hne, hval, ho, hsucc, List.isEmpty_iff]

theorem awbStage_skip (s : Session) (m : String) (now : Nat) (ext : Ext)
    (h : extractAWB m = none) : awbStage s m now ext = .cont s := by
  unfold awbStage
  simp [h]

theorem awbStage_noOrder (s : Session) (m : String) (now : Nat) (ext : Ext)
    (awb : String) (ha : extractAWB m = some awb) (hg : ext.getOrder awb = none) :
    awbStage s m now ext = .cont s := by
  unfold awbStage
  simp [ha, hg]

theorem awbStage_verified (s : Session) (m : String) (now : Nat) (ext : Ext)
    (awb : String) (o : Order) (ha : extractAWB m = some awb)
    (hg : ext.getOrder awb = some o) (hv : s.otpVerified = true) :
    awbStage s m now ext = .cont { s with currentOrder := some o } := by
  unfold awbStage
  simp [ha, hg, hv]

theorem awbStage_issue (s : Session) (m : String) (now : Nat) (ext : Ext)
    (awb : String) (o : Order) (ha : extractAWB m = some awb)
    (hg : ext.getOrder awb = some o) (hv : s.otpVerified = false) :
    awbStage s m now ext =
      .reply { s with
                 currentOrder := some o, otp := some (otpString ext.otpRand),
                 otpTimestamp := some now, conversationState := "AWAITING_OTP" }
        otpIssueReply := by
  unfold awbStage
  simp [ha, hg, hv]

/-- Composition: when the OTP gate fires, its result is the whole request's
result. -/
theorem processSession_otpGate (s s' : Session) (as m : String) (now : Nat)
    (ext : Ext) (r : ChatResponse) (h : otpGate s m now = some (s', r)) :
    processSession s as m now ext = (s', as, r) := by
  unfold processSession
  rw [h]

/-- Composition: when the OTP gate does not fire and the slot-selection
stage replies, its result is the whole request's result. -/
theorem processSession_slot (s s' : Session) (as m : String) (now : Nat)
    (ext : Ext) (r : ChatResponse) (hg : otpGate s m now = none)
    (hs : slotStage s m ext = .reply s' r) :
    processSession s as m now ext = (s', as, r) := by
  unfold processSession
  rw [hg, hs]

/-- Composition: OTP gate silent, slot stage continues unchanged, AWB stage
replies. -/
theorem processSession_awb (s s1 s' : Session) (as m : String) (now : Nat)
    (ext : Ext) (r : ChatResponse) (hg : otpGate s m now = none)
    (hs : slotStage s m ext = .cont s1)
    (ha : awbStage s1 m now ext = .reply s' r) :
    processSession s as m now ext = (s', as, r) := by
  unfold processSession
  rw [hg, hs]
  dsimp only
  rw [ha]

/-! The session invariant behind the OTP-confidentiality claim: a session
holding pending reschedule options is always OTP-verified and holds a
current order. -/

theorem slotStage_session (s : Session) (m : String) (ext : Ext) :
    stageSession (slotStage s m ext) = s
      ∨ (stageSession (slotStage s m ext)).rescheduleOptions = [] := by
  unfold slotStage
  split
  · split
    · split
      · split <;> simp [stageSession]
      · simp [stageSession]
    · simp [stageSession]
  · simp [stageSession]

theorem slotStage_cont_eq (s s1 : Session) (m : String) (ext : Ext)
    (h : slotStage s m ext = .cont s1) : s1 = s := by
  unfold slotStage at h
  split at h
  · split at h
    · split at h
      · split at h <;> cases h
      · cases h; rfl
    · cases h
  · cases h; rfl

theorem awbStage_inv (s : Session) (m : String) (now : Nat) (ext : Ext)
    (h : SessionInv s) : SessionInv (stageSession (awbStage s m now ext)) := by
  unfold awbStage
  split
  · split
    · split
      · next hv =>
        have hv' : s.otpVerified = false := by
          simpa using hv
        have hopts : s.rescheduleOptions = [] := by
          by_contra hne
          rw [(h hne).1] at hv'; cases hv'
        simp [stageSession, SessionInv, hopts]
      · next hv =>
        have hv' : s.otpVerified = true := by
          simpa using hv
        intro _
        simp [stageSession, hv']
    · exact h
  · exact h

/-- The current order and the verified flag survive the AWB stage's
continuation except that the order may be refreshed; in particular the
options list and the verified flag are unchanged. -/
theorem awbStage_cont_fields (s s2 : Session) (m : String) (now : Nat) (ext : Ext)
    (h : awbStage s m now ext = .cont s2) :
    s2.otpVerified = s.otpVerified ∧ s2.rescheduleOptions = s.rescheduleOptions := by
  unfold awbStage at h
  split at h
  · split at h
    · split at h
      · cases h
      · cases h; simp
    · cases h; exact ⟨rfl, rfl⟩
  · cases h; exact ⟨rfl, rfl⟩

theorem dispatchStage_inv (s : Session) (as m : String) (ext : Ext)
    (h : SessionInv s)
    (hg : s.currentOrder.isSome = false ∨ s.otpVerified = true) :
    SessionInv (dispatchStage s as m ext).1 := by
  unfold dispatchStage
  dsimp only
  split
  · next hcond =>
    intro _
    have hsome : s.currentOrder.isSome = true := by simpa using hcond.2
    have hv : s.otpVerified = true := by
      rcases hg with hgf | hgt
      · rw [hsome] at hgf; cases hgf
      · exact hgt
    exact ⟨by simpa using hv, by simpa using hsome⟩
  · intro hne
    have hne' : s.rescheduleOptions ≠ [] := by simpa using hne
    exact ⟨by simpa using (h hne').1, by simpa using (h hne').2⟩

theorem processSession_inv (s : Session) (as m : String) (now : Nat) (ext : Ext)
    (h : SessionInv s) : SessionInv (processSession s as m now ext).1 := by
  unfold processSession
  cases hg : otpGate s m now with
  | some p =>
    obtain ⟨s', r⟩ := p
    dsimp only
    obtain ⟨hst, hv, hc⟩ := otpGate_cases s m now s' r hg
    have hopts : s.rescheduleOptions = [] := by
      by_contra hne
      rw [(h hne).1] at hv; cases hv
    rcases hc with ⟨h1, _⟩ | ⟨h1, _⟩ | ⟨h1, _⟩ <;> subst h1 <;>
      simp [SessionInv, hopts]
  | none =>
    dsimp only
    cases hs : slotStage s m ext with
    | reply s' r =>
      dsimp only
      have hses := slotStage_session s m ext
      rw [hs] at hses
      simp only [stageSession] at hses
      rcases hses with h1 | h1
      · rwa [h1]
      · intro hne; exact absurd h1 hne
    | cont s1 =>
      dsimp only
      have hs1 : s1 = s := slotStage_cont_eq s s1 m ext hs
      subst hs1
      cases ha : awbStage s1 m now ext with
      | reply s2 r2 =>
        dsimp only
        have hai := awbStage_inv s1 m now ext h
        rw [ha] at hai
        exact hai
      | cont s2 =>
        dsimp only
        have hinv2 : SessionInv s2 := by
          have hai := awbStage_inv s1 m now ext h
          rwa [ha] at hai
        split
        · exact hinv2
        · next hgate =>
          refine dispatchStage_inv s2 as m ext hinv2 ?_
          rcases hs2 : s2.currentOrder.isSome with _ | _
          · exact Or.inl rfl
          · right
            by_contra hv
            have hvf : s2.otpVerified = false := by
              rcases hv2 : s2.otpVerified with _ | _
              · rfl
              · exact absurd hv2 hv
            rw [hs2, hvf] at hgate
            simp at hgate

/-- Any reply produced by the AWB stage is the OTP-issuance reply. -/
theorem awbStage_reply_eq (s s2 : Session) (m : String) (now : Nat) (ext : Ext)
    (r2 : ChatResponse) (h : awbStage s m now ext = .reply s2 r2) :
    r2 = otpIssueReply := by
  unfold awbStage at h
  split at h
  · split at h
    · split at h
      · cases h; rfl
      · cases h
    · cases h
  · cases h

theorem dispatchStage_noOrder (s : Session) (as m : String) (ext : Ext)
    (hord : s.currentOrder = none) :
    (dispatchStage s as m ext).2.2.orderDetails = none
      ∧ (dispatchStage s as m ext).2.2.showDetails ≠ some true
      ∧ (dispatchStage s as m ext).2.2.response ∈ cannedUnverifiedResponses := by
  unfold dispatchStage
  cases hc : ext.llm with
  | failure =>
    simp [hord, handleLlmRequest, cannedUnverifiedResponses]
  | noToolCall =>
    simp [hord, handleLlmRequest, cannedUnverifiedResponses]
  | getOrderInfo action =>
    simp [hord, handleLlmRequest, handleOrderAction, cannedUnverifiedResponses]
  | handleConversation convType =>
    by_cases hgr : convType = "greeting" <;>
      simp [hord, handleLlmRequest, handleGreeting, handleFarewell, hgr,
        cannedUnverifiedResponses]
  | unknownTool =>
    simp [hord, handleLlmRequest, cannedUnverifiedResponses]

/-- Per-request confidentiality: a session that is not OTP-verified (and
satisfies the stored-session invariant) never receives order detail
fields, and its response text is one of the canned prompts. -/
theorem processSession_unverified (s : Session) (as m : String) (now : Nat)
    (ext : Ext) (h : SessionInv s) (hv : s.otpVerified = false) :
    (processSession s as m now ext).2.2.orderDetails = none
      ∧ (processSession s as m now ext).2.2.showDetails ≠ some true
      ∧ (processSession s as m now ext).2.2.response ∈ cannedUnverifiedResponses := by
  unfold processSession
  cases hg : otpGate s m now with
  | some p =>
    obtain ⟨s', r⟩ := p
    dsimp only
    obtain ⟨_, _, hc⟩ := otpGate_cases s m now s' r hg
    rcases hc with ⟨_, h2⟩ | ⟨_, h2⟩ | ⟨_, h2⟩ <;> subst h2 <;>
      simp [otpSuccessReply, otpFailReply, otpRepromptReply, cannedUnverifiedResponses]
  | none =>
    dsimp only
    have hopts : s.rescheduleOptions = [] := by
      by_contra hne
      rw [(h hne).1] at hv; cases hv
    rw [slotStage_skip s m ext (Or.inr hopts)]
    dsimp only
    cases ha : awbStage s m now ext with
    | reply s2 r2 =>
      dsimp only
      rw [awbStage_reply_eq s s2 m now ext r2 ha]
      simp [otpIssueReply, cannedUnverifiedResponses]
    | cont s2 =>
      dsimp only
      have hf := awbStage_cont_fields s s2 m now ext ha
      have hvf2 : s2.otpVerified = false := hf.1.trans hv
      split
      · simp [verifyGateReply, cannedUnverifiedResponses]
      · next hgate =>
        have hnone : s2.currentOrder = none := by
          rcases hso : s2.currentOrder with _ | o
          · rfl
          · exfalso; rw [hso, hvf2] at hgate; simp at hgate
        exact dispatchStage_noOrder s2 as m ext hnone

theorem lookupSession_mem {l : List (String × Session)} {sid : String} {s : Session}
    (h : lookupSession l sid = some s) : ∃ p, p ∈ l ∧ p.2 = s := by
  unfold lookupSession at h
  cases hf : l.find? (fun p => p.1 = sid) with
  | none => rw [hf] at h; cases h
  | some p =>
    rw [hf] at h
    exact ⟨p, List.mem_of_find?_eq_some hf, by injection h⟩

theorem setSession_mem {l : List (String × Session)} {sid : String} {s : Session}
    {p : String × Session} (h : p ∈ setSession l sid s) : p ∈ l ∨ p.2 = s := by
  unfold setSession at h
  split at h
  · obtain ⟨q, hq, hfq⟩ := List.mem_map.mp h
    by_cases hqs : q.1 = sid
    · right; rw [if_pos hqs] at hfq; rw [← hfq]
    · left; rw [if_neg hqs] at hfq; exact hfq ▸ hq
  · rcases List.mem_append.mp h with h1 | h1
    · exact Or.inl h1
    · right
      have : p = (sid, s) := by simpa using h1
      rw [this]

theorem chatStep_inv (st : ServerState) (sid msg : String) (now : Nat) (ext : Ext)
    (h : StInv st) : StInv (chatStep st sid msg now ext).1 := by
  unfold chatStep
  split
  · exact h
  · cases hl : lookupSession st.sessions sid with
    | none =>
      dsimp only
      intro p hp
      rcases setSession_mem hp with h1 | h1
      · exact h p h1
      · rw [h1]
        exact processSession_inv _ _ _ _ _ (fun hne => absurd rfl hne)
    | some session =>
      dsimp only
      split
      · intro p hp
        exact h p (List.mem_of_mem_filter hp)
      · intro p hp
        rcases setSession_mem hp with h1 | h1
        · exact h p h1
        · rw [h1]
          refine processSession_inv _ _ _ _ _ ?_
          obtain ⟨q, hq, hq2⟩ := lookupSession_mem hl
          have hqi : SessionInv session := hq2 ▸ h q hq
          exact fun hne => hqi hne

theorem cleanup_inv (st : ServerState) (now : Nat) (h : StInv st) :
    StInv (cleanupExpiredSessions st now) := by
  unfold cleanupExpiredSessions
  intro p hp
  exact h p (List.mem_of_mem_filter hp)

theorem reset_inv (st : ServerState) (sid : String) (h : StInv st) :
    StInv (resetSession st sid) := by
  unfold resetSession
  intro p hp
  exact h p (List.mem_of_mem_filter hp)

/-- Every reachable server state satisfies the stored-session invariant. -/
theorem reachable_inv (st : ServerState) (h : Reachable st) : StInv st := by
  induction h with
  | init => intro p hp; cases hp
  | chat sid msg now ext _ ih => exact chatStep_inv _ sid msg now ext ih
  | sweep now _ ih => exact cleanup_inv _ now ih
  | reset sid _ ih => exact reset_inv _ sid ih

theorem lookupSession_erase (l : List (String × Session)) (sid : String) :
    lookupSession (eraseSession l sid) sid = none := by
  unfold lookupSession eraseSession
  cases hf : (l.filter (fun p => p.1 ≠ sid)).find? (fun p => p.1 = sid) with
  | none => rfl
  | some p =>
    have hp := List.find?_some hf
    have hne := List.of_mem_filter (List.mem_of_find?_eq_some hf)
    simp only [decide_eq_true_eq] at hp
    simp only [hp, decide_not] at hne
    simp at hne

theorem insertExpired_contains (e : List String) (sid : String) :
    (insertExpired e sid).contains sid = true := by
  unfold insertExpired
  split
  · assumption
  · simp

/-- C1. For every reachable server state and every request whose session is
absent or not OTP-verified, the reply carries no `orderDetails` payload, no
`showDetails = true` flag, and its response text is one of the canned
prompts (which embed no order data). -/
theorem c1_unverified_no_order_details (st : ServerState) (hst : Reachable st)
    (sid msg : String) (now : Nat) (ext : Ext)
    (hv : ∀ s, lookupSession st.sessions sid = some s → s.otpVerified = false) :
    (chatStep st sid msg now ext).2.orderDetails = none
      ∧ (chatStep st sid msg now ext).2.showDetails ≠ some true
      ∧ (chatStep st sid msg now ext).2.response ∈ cannedUnverifiedResponses := by
  have hInv := reachable_inv st hst
  unfold chatStep
  split
  · simp [expiredReply, cannedUnverifiedResponses]
  · cases hl : lookupSession st.sessions sid with
    | none =>
      dsimp only
      exact processSession_unverified _ _ _ _ _ (fun hne => absurd rfl hne) rfl
    | some session =>
      dsimp only
      split
      · simp [expiredReply, cannedUnverifiedResponses]
      · dsimp only
        obtain ⟨q, hq, hq2⟩ := lookupSession_mem hl
        have hsv : session.otpVerified = false := hv session hl
        exact processSession_unverified _ _ _ _ _
          (fun hne => (hq2 ▸ hInv q hq) hne) hsv

/-- Witness for C1 at the initial state (no stored sessions). -/
theorem c1_witness :
    Reachable initialState
      ∧ ((chatStep initialState "s1" "hello" 0 extNone).2.orderDetails = none
        ∧ (chatStep initialState "s1" "hello" 0 extNone).2.showDetails ≠ some true
        ∧ (chatStep initialState "s1" "hello" 0 extNone).2.response
            ∈ cannedUnverifiedResponses) :=
  ⟨Reachable.init,
    c1_unverified_no_order_details initialState Reachable.init "s1" "hello" 0 extNone
      (fun _ h => nomatch h)⟩

/-- C2. In state `AWAITING_OTP` with an unverified session holding an issued
6-digit OTP: the correct code within 120 s verifies and moves to
`ORDER_FOUND`; any wrong 6-digit code, or the right one after the window,
clears the OTP fields and resets to `INITIAL`; a non-6-digit message only
re-prompts, leaving the session unchanged. -/
theorem c2_otp_validation (s : Session) (as m : String) (now t0 : Nat) (ext : Ext)
    (code : String)
    (hst : s.conversationState = "AWAITING_OTP") (hv : s.otpVerified = false)
    (hotp : s.otp = some code) (hts : s.otpTimestamp = some t0)
    (hsixcode : isSixDigits code = true) :
    ((jsTrim m = code ∧ now - t0 ≤ 120000) →
        processSession s as m now ext =
          ({ s with otpVerified := true, conversationState := "ORDER_FOUND" }, as,
            otpSuccessReply))
      ∧ ((isSixDigits (jsTrim m) = true ∧ (jsTrim m ≠ code ∨ 120000 < now - t0)) →
        processSession s as m now ext =
          ({ s with
               otp := none, otpTimestamp := none,
               otpVerified := false, conversationState := "INITIAL" }, as,
            otpFailReply))
      ∧ (isSixDigits (jsTrim m) = false →
        processSession s as m now ext = (s, as, otpRepromptReply)) := by
  refine ⟨?_, ?_, ?_⟩
  · rintro ⟨hmeq, hle⟩
    have hsixm : isSixDigits (jsTrim m) = true := by rw [hmeq]; exact hsixcode
    have hchk : otpCheck s m now = true := by
      unfold otpCheck
      rw [hotp, hts]
      simp [hmeq, OTP_WINDOW, hle]
    exact processSession_otpGate _ _ _ _ _ _ _
      (otpGate_success_eq s m now hst hv hsixm hchk)
  · rintro ⟨hsixm, hbad⟩
    have hchk : otpCheck s m now = false := by
      unfold otpCheck
      rw [hotp, hts]
      rcases hbad with hne | hlt
      · simp [hne]
      · simp [OTP_WINDOW, Nat.not_le.mpr hlt]
    exact processSession_otpGate _ _ _ _ _ _ _
      (otpGate_fail_eq s m now hst hv hsixm hchk)
  · intro hsixm
    exact processSession_otpGate _ _ _ _ _ _ _
      (otpGate_reprompt_eq s m now hst hv hsixm)

/-- Witness for C2: the correct code entered one second after issuance
verifies the session. -/
theorem c2_witness :
    processSession sessC2 "INITIAL" "123456" 1000 extNone =
      ({ sessC2 with otpVerified := true, conversationState := "ORDER_FOUND" },
        "INITIAL", otpSuccessReply) :=
  (c2_otp_validation sessC2 "INITIAL" "123456" 1000 0 extNone "123456"
    rfl rfl rfl rfl (by decide)).1 ⟨by decide, by decide⟩

/-- C3. A live session idle for more than 120 s yields the session-expired
reply (`sessionExpired = true`, `endConversation = true`), is deleted from
the session map and its id joins the known-expired set; a session within
the window has `lastActiveAt` refreshed to the arrival time and processing
continues on the refreshed session. -/
theorem c3_session_expiry (st : ServerState) (sid msg : String) (now : Nat)
    (ext : Ext) (s : Session)
    (hl : lookupSession st.sessions sid = some s)
    (hnx : st.expiredSessions.contains sid = false) :
    (120000 < now - s.lastActive →
        chatStep st sid msg now ext =
            ({ st with sessions := eraseSession st.sessions sid,
                       expiredSessions := insertExpired st.expiredSessions sid },
              expiredReply)
          ∧ (chatStep st sid msg now ext).2.sessionExpired = some true
          ∧ (chatStep st sid msg now ext).2.endConversation = some true
          ∧ lookupSession (chatStep st sid msg now ext).1.sessions sid = none
          ∧ (chatStep st sid msg now ext).1.expiredSessions.contains sid = true)
      ∧ (now - s.lastActive ≤ 120000 →
        chatStep st sid msg now ext =
          (let r := processSession { s with lastActive := now }
            st.assistantState msg now ext
           ({ st with sessions := setSession st.sessions sid r.1,
                      assistantState := r.2.1 }, r.2.2))) := by
  have hstep : chatStep st sid msg now ext =
      (if now - s.lastActive > SESSION_EXPIRATION then
        ({ st with sessions := eraseSession st.sessions sid,
                   expiredSessions := insertExpired st.expiredSessions sid },
          expiredReply)
      else
        let r := processSession { s with lastActive := now }
          st.assistantState msg now ext
        ({ st with sessions := setSession st.sessions sid r.1,
                   assistantState := r.2.1 }, r.2.2)) := by
    unfold chatStep
    rw [hnx, hl]
    rfl
  constructor
  · intro h
    have hcond : now - s.lastActive > SESSION_EXPIRATION := by
      simpa [SESSION_EXPIRATION] using h
    rw [hstep, if_pos hcond]
    refine ⟨rfl, rfl, rfl, ?_, ?_⟩
    · exact lookupSession_erase st.sessions sid
    · exact insertExpired_contains st.expiredSessions sid
  · intro h
    have hcond : ¬ now - s.lastActive > SESSION_EXPIRATION := by
      simpa [SESSION_EXPIRATION] using h
    rw [hstep, if_neg hcond]

/-- Witness for C3: a message 129.9 s after the last activity gets the
expiry reply and the session is removed. -/
theorem c3_witness :
    (chatStep stC3 "X" "hi" 130000 extNone).2.sessionExpired = some true
      ∧ (chatStep stC3 "X" "hi" 130000 extNone).2.endConversation = some true
      ∧ lookupSession (chatStep stC3 "X" "hi" 130000 extNone).1.sessions "X" = none
      ∧ (chatStep stC3 "X" "hi" 130000 extNone).1.expiredSessions.contains "X" = true :=
  ((c3_session_expiry stC3 "X" "hi" 130000 extNone sessC3 rfl rfl).1 (by decide)).2

/-- C4. `generateRescheduleOptions` returns exactly 3 options at strictly
increasing dates, one per day offset 1, 2, 3 from the base date, the time
of day chosen by `cycle[offset % 3]` over the cycle (Morning 09:00,
Afternoon 13:00, Evening 18:00), and it is a pure deterministic function of
the base date. -/
theorem c4_generate_options (b : DateM) :
    (generateRescheduleOptions b).length = 3
      ∧ List.Chain' (fun x y => x.date.toMs < y.date.toMs) (generateRescheduleOptions b)
      ∧ (generateRescheduleOptions b).map (fun o => o.date.days)
          = [b.days + 1, b.days + 2, b.days + 3]
      ∧ (generateRescheduleOptions b).map (fun o => o.date.msOfDay)
          = [13 * 3600000, 18 * 3600000, 9 * 3600000]
      ∧ [slotNames.getD (1 % 3) "", slotNames.getD (2 % 3) "", slotNames.getD (3 % 3) ""]
          = ["Afternoon", "Evening", "Morning"]
      ∧ generateRescheduleOptions b = generateRescheduleOptions b := by
  refine ⟨rfl, ?_, ?_, ?_, by decide, rfl⟩
  · simp only [generateRescheduleOptions, mkRescheduleOption, slotNames, slotTimeMs,
      DateM.toMs, List.chain'_cons, List.chain'_singleton, and_true]
    norm_num
    constructor <;> omega
  · simp [generateRescheduleOptions, mkRescheduleOption]
  · simp [generateRescheduleOptions, mkRescheduleOption, slotNames, slotTimeMs]

/-- C5 counterexample: in `RESCHEDULE_OPTIONS` with 3 pending options and a
current order, input `"2"` does NOT clear the pending list when the order
store update fails — the list is preserved for retry (see C8), contradicting
the unconditional claim that inputs 1..3 select and clear. -/
theorem c5_counterexample :
    sessC5.conversationState = "RESCHEDULE_OPTIONS"
      ∧ sessC5.rescheduleOptions.length = 3
      ∧ sessC5.currentOrder.isSome = true
      ∧ (processSession sessC5 "INITIAL" "2" 1000 extNone).1.rescheduleOptions ≠ []
      ∧ (processSession sessC5 "INITIAL" "2" 1000 extNone).1 = sessC5 := by
  decide

/-- C5 (amended): with 3 pending options, a current order and a successful
store update, inputs 1, 2, 3 select the corresponding 1-indexed option and
clear the pending list; inputs that are unparsable or out of the range 1..3
leave the session (state and pending list included) unchanged and return
the range-correction reply. -/
theorem c5_slot_selection (s : Session) (as m : String) (now : Nat) (ext : Ext)
    (o1 o2 o3 : RescheduleOption) (ord : Order)
    (hst : s.conversationState = "RESCHEDULE_OPTIONS")
    (hopts : s.rescheduleOptions = [o1, o2, o3])
    (hord : s.currentOrder = some ord) :
    ((∀ k : Int, ext.rescheduleSuccess = true →
        parseIntJS (jsTrim m) = some k → 1 ≤ k → k ≤ 3 →
        processSession s as m now ext =
          ({ s with
               currentOrder := ext.refreshedOrder, rescheduleOptions := [],
               conversationState := "ORDER_FOUND" }, as,
            rescheduledReply ([o1, o2, o3].getD (k.toNat - 1) ⟨⟨0, 0⟩, ""⟩)
              ext.refreshedOrder)))
      ∧ ((parseIntJS (jsTrim m) = none
            ∨ (∃ k, parseIntJS (jsTrim m) = some k ∧ (k < 1 ∨ 3 < k))) →
        processSession s as m now ext = (s, as, rangeReply 3)) := by
  have hgnone : otpGate s m now = none :=
    otpGate_none s m now (Or.inl (by rw [hst]; decide))
  have hne : s.rescheduleOptions ≠ [] := by rw [hopts]; simp
  have hlen : s.rescheduleOptions.length = 3 := by rw [hopts]; rfl
  constructor
  · intro k hsucc hk h1 h3
    have hval : slotValid s m = some k := by
      unfold slotValid
      rw [hk, hlen]
      simp [h1, h3]
    have hslot := slotStage_success_eq s m ext k hst hne hval
      (by rw [hord]; rfl) hsucc
    rw [hopts] at hslot
    exact processSession_slot _ _ _ _ _ _ _ hgnone hslot
  · intro hbad
    have hval : slotValid s m = none := by
      unfold slotValid
      rcases hbad with hnone | ⟨k, hk, hout⟩
      · rw [hnone]
      · rw [hk, hlen]
        rcases hout with hlt | hgt
        · simp [show ¬ (1 : Int) ≤ k by omega]
        · simp [show ¬ k ≤ (3 : Int) by omega]
    have hslot := slotStage_range_eq s m ext hst hne hval
    rw [hlen] at hslot
    exact processSession_slot _ _ _ _ _ _ _ hgnone hslot

/-- Witness for C5 (amended): input "2" with a successful update selects the
second option and clears the list. -/
theorem c5_witness :
    processSession sessC5 "INITIAL" "2" 1000 extC5 =
      ({ sessC5 with
           currentOrder := extC5.refreshedOrder, rescheduleOptions := [],
           conversationState := "ORDER_FOUND" }, "INITIAL",
        rescheduledReply ((generateRescheduleOptions ⟨20010, 0⟩).getD 1 ⟨⟨0, 0⟩, ""⟩)
          extC5.refreshedOrder) := by
  have h := (c5_slot_selection sessC5 "INITIAL" "2" 1000 extC5
    (mkRescheduleOption ⟨20010, 0⟩ 1) (mkRescheduleOption ⟨20010, 0⟩ 2)
    (mkRescheduleOption ⟨20010, 0⟩ 3) ordC5 rfl rfl rfl).1 2
    rfl (by decide) (by decide) (by decide)
  exact h

/-- C8. When a selected reschedule option is applied and the order store
update fails, the session is completely unchanged — it stays in
`RESCHEDULE_OPTIONS` with its pending option list intact so the selection
can be retried — and the only effect is the retry-suggesting reply. -/
theorem c8_store_failure_preserves (s : Session) (as m : String) (now : Nat)
    (ext : Ext) (k : Int) (ord : Order)
    (hst : s.conversationState = "RESCHEDULE_OPTIONS")
    (hne : s.rescheduleOptions ≠ [])
    (hord : s.currentOrder = some ord)
    (hval : slotValid s m = some k)
    (hfail : ext.rescheduleSuccess = false) :
    processSession s as m now ext = (s, as, rescheduleFailReply) := by
  have hgnone : otpGate s m now = none :=
    otpGate_none s m now (Or.inl (by rw [hst]; decide))
  exact processSession_slot _ _ _ _ _ _ _ hgnone
    (slotStage_fail_eq s m ext k hst hne hval (by rw [hord]; rfl) hfail)

/-- Witness for C8: store failure on input "2" leaves the session intact
and returns the retry reply. -/
theorem c8_witness :
    processSession sessC5 "INITIAL" "2" 1000 extNone =
      (sessC5, "INITIAL", rescheduleFailReply) :=
  c8_store_failure_preserves sessC5 "INITIAL" "2" 1000 extNone 2 ordC5
    rfl (by decide) rfl (by decide) rfl

theorem digitChar_isDigit (d : Nat) (h : d < 10) : (digitChar d).isDigit = true := by
  interval_cases d <;> decide

theorem digitChar_mod_isDigit (x : Nat) : (digitChar (x % 10)).isDigit = true :=
  digitChar_isDigit _ (Nat.mod_lt _ (by norm_num))

/-- Every generated OTP string is exactly six decimal digits. -/
theorem otpString_isSixDigits (r : Nat) : isSixDigits (otpString r) = true := by
  unfold isSixDigits otpString
  refine (Bool.and_eq_true _ _).mpr ⟨by rfl, ?_⟩
  show List.all _ Char.isDigit = true
  simp [digitChar_mod_isDigit]

/-- C6 counterexample: a message containing a tracking id of an existing
order, sent by a not-yet-verified session, does NOT always trigger a fresh
OTP — in state `AWAITING_OTP` the OTP gate intercepts the message first and
merely re-prompts, leaving `otp` and its issuance time unchanged. -/
theorem c6_counterexample :
    extractAWB "AWB333333" = some "AWB333333"
      ∧ extC6.getOrder "AWB333333" = some ordC6
      ∧ sessC6.otpVerified = false
      ∧ processSession sessC6 "INITIAL" "AWB333333" 5000 extC6
          = (sessC6, "INITIAL", otpRepromptReply)
      ∧ (processSession sessC6 "INITIAL" "AWB333333" 5000 extC6).1.otpTimestamp
          ≠ some 5000
      ∧ (processSession sessC6 "INITIAL" "AWB333333" 5000 extC6).1.otp
          = some "999999" := by
  decide

/-- C6 (amended). For a message containing a tracking id whose order exists,
received by a not-yet-verified session that is not intercepted by an earlier
pipeline stage (the OTP gate of an `AWAITING_OTP` session, or slot selection
in `RESCHEDULE_OPTIONS` with pending options): the engine stores a fresh
6-digit OTP, records its issuance time `now`, moves the session to
`AWAITING_OTP`, and the result is the same whatever the Notifier outcome. -/
theorem c6_otp_issuance (s : Session) (as m : String) (now : Nat) (ext : Ext)
    (awb : String) (ord : Order)
    (hgate : s.conversationState ≠ "AWAITING_OTP")
    (hslot : s.conversationState ≠ "RESCHEDULE_OPTIONS" ∨ s.rescheduleOptions = [])
    (ha : extractAWB m = some awb) (hg : ext.getOrder awb = some ord)
    (hv : s.otpVerified = false) :
    (∀ ok : Bool,
        processSession s as m now { ext with notifierOk := ok } =
          ({ s with
               currentOrder := some ord, otp := some (otpString ext.otpRand),
               otpTimestamp := some now, conversationState := "AWAITING_OTP" }, as,
            otpIssueReply))
      ∧ isSixDigits (otpString ext.otpRand) = true := by
  refine ⟨?_, otpString_isSixDigits ext.otpRand⟩
  intro ok
  have hgnone : otpGate s m now = none := otpGate_none s m now (Or.inl hgate)
  have hslot' : slotStage s m { ext with notifierOk := ok } = .cont s :=
    slotStage_skip s m _ hslot
  exact processSession_awb _ _ _ _ _ _ _ _ hgnone hslot'
    (awbStage_issue s m now { ext with notifierOk := ok } awb ord ha hg hv)

/-- Witness for C6 (amended): a fresh `INITIAL` session tracking an existing
order gets a new OTP recorded at the arrival time, for both Notifier
outcomes. -/
theorem c6_witness :
    processSession (freshSession 42) "INITIAL" "track AWB333333" 42
        { extC6 with notifierOk := false } =
      ({ freshSession 42 with
           currentOrder := some ordC6, otp := some (otpString extC6.otpRand),
           otpTimestamp := some 42, conversationState := "AWAITING_OTP" },
        "INITIAL", otpIssueReply) :=
  (c6_otp_issuance (freshSession 42) "INITIAL" "track AWB333333" 42 extC6
    "AWB333333" ordC6 (by decide) (Or.inr rfl) (by decide) rfl rfl).1 false

/-- An offer of reschedule options by the intent resolver presupposes an
eligible current order (`canReschedule`). -/
theorem handleLlmRequest_requiresReschedule (ui cs : String) (order : Option Order)
    (c : LlmCall)
    (h : (handleLlmRequest ui cs order c).requiresReschedule = some true) :
    ∃ o, order = some o ∧ canReschedule o = true := by
  cases c with
  | failure => simp [handleLlmRequest] at h
  | noToolCall => simp [handleLlmRequest] at h
  | unknownTool => simp [handleLlmRequest] at h
  | handleConversation t =>
    by_cases ht : t = "greeting" <;>
      simp [handleLlmRequest, handleGreeting, handleFarewell, ht] at h
  | getOrderInfo action =>
    cases order with
    | none => simp [handleLlmRequest, handleOrderAction] at h
    | some o =>
      by_cases h1 : action = "status"
      · simp [handleLlmRequest, handleOrderAction, h1] at h
      · by_cases h2 : action = "details"
        · simp [handleLlmRequest, handleOrderAction, h1, h2] at h
        · by_cases h3 : action = "reschedule"
          · by_cases h4 : canReschedule o = true
            · exact ⟨o, rfl, h4⟩
            · have h4' : (!canReschedule o) = true := by
                rcases hb : canReschedule o with _ | _
                · rfl
                · exact absurd hb h4
              simp [handleLlmRequest, handleOrderAction, h1, h2, h3, h4'] at h
          · simp [handleLlmRequest, handleOrderAction, h1, h2, h3] at h

theorem dispatchStage_order_eq (s : Session) (as m : String) (ext : Ext) :
    (dispatchStage s as m ext).1.currentOrder = s.currentOrder := by
  unfold dispatchStage
  dsimp only
  split <;> rfl

theorem dispatchStage_eligibility (s : Session) (as m : String) (ext : Ext) :
    ((dispatchStage s as m ext).2.2.requiresReschedule = some true →
        ∃ o, s.currentOrder = some o ∧ canReschedule o = true)
      ∧ ((dispatchStage s as m ext).2.2.rescheduleOptions ≠ none →
        ∃ o, s.currentOrder = some o ∧ canReschedule o = true)
      ∧ ((dispatchStage s as m ext).1.rescheduleOptions = s.rescheduleOptions
        ∨ ∃ o, s.currentOrder = some o ∧ canReschedule o = true) := by
  by_cases hc : (handleLlmRequest m as s.currentOrder ext.llm).requiresReschedule
      = some true
  · have hex := handleLlmRequest_requiresReschedule m as s.currentOrder ext.llm hc
    exact ⟨fun _ => hex, fun _ => hex, Or.inr hex⟩
  · refine ⟨fun h => absurd h hc, fun h => ?_, Or.inl ?_⟩
    · have hnone : (dispatchStage s as m ext).2.2.rescheduleOptions = none := by
        unfold dispatchStage
        dsimp only
        simp [hc]
      exact absurd hnone h
    · unfold dispatchStage
      dsimp only
      simp [hc]

theorem awbStage_opts (s : Session) (m : String) (now : Nat) (ext : Ext) :
    (stageSession (awbStage s m now ext)).rescheduleOptions = s.rescheduleOptions := by
  unfold awbStage
  split
  · split
    · split <;> simp [stageSession]
    · simp [stageSession]
  · simp [stageSession]

/-- C7 (amended). In any single processing step: a reply carrying
`requiresReschedule = true`, or carrying a `rescheduleOptions` payload,
implies the session's current order at reply time is reschedulable
(`canReschedule`: not Delivered, not Out for Delivery, not already
rescheduled); and the stored pending-options list only ever changes by
being cleared or by being generated for such an eligible order.  (The
original claim additionally asserted the session never even enters state
`RESCHEDULE_OPTIONS` holding an ineligible order; that is refuted by the
shared-assistant-state fallback, see the counterexample.) -/
theorem c7_reschedule_eligibility (s : Session) (as m : String) (now : Nat)
    (ext : Ext) :
    ((processSession s as m now ext).2.2.requiresReschedule = some true →
        ∃ o, (processSession s as m now ext).1.currentOrder = some o
          ∧ canReschedule o = true)
      ∧ ((processSession s as m now ext).2.2.rescheduleOptions ≠ none →
        ∃ o, (processSession s as m now ext).1.currentOrder = some o
          ∧ canReschedule o = true)
      ∧ ((processSession s as m now ext).1.rescheduleOptions = s.rescheduleOptions
        ∨ (processSession s as m now ext).1.rescheduleOptions = []
        ∨ ∃ o, (processSession s as m now ext).1.currentOrder = some o
            ∧ canReschedule o = true) := by
  unfold processSession
  cases hg : otpGate s m now with
  | some p =>
    obtain ⟨s', r⟩ := p
    dsimp only
    obtain ⟨_, _, hc⟩ := otpGate_cases s m now s' r hg
    rcases hc with ⟨h1, h2⟩ | ⟨h1, h2⟩ | ⟨h1, h2⟩ <;> subst h1 <;> subst h2 <;>
      simp [otpSuccessReply, otpFailReply, otpRepromptReply]
  | none =>
    dsimp only
    cases hs : slotStage s m ext with
    | reply s' r =>
      dsimp only
      unfold slotStage at hs
      split at hs
      · split at hs
        · split at hs
          · split at hs
            · cases hs
              refine ⟨by simp [rescheduledReply], by simp [rescheduledReply], ?_⟩
              exact Or.inr (Or.inl rfl)
            · cases hs
              exact ⟨by simp [rescheduleFailReply], by simp [rescheduleFailReply],
                Or.inl rfl⟩
          · cases hs
        · cases hs
          exact ⟨by simp [rangeReply], by simp [rangeReply], Or.inl rfl⟩
      · cases hs
    | cont s1 =>
      dsimp only
      have hs1 : s1 = s := slotStage_cont_eq s s1 m ext hs
      subst hs1
      cases ha : awbStage s1 m now ext with
      | reply s2 r2 =>
        dsimp only
        have hr2 := awbStage_reply_eq s1 s2 m now ext r2 ha
        subst hr2
        have hopts := awbStage_opts s1 m now ext
        rw [ha] at hopts
        simp only [stageSession] at hopts
        exact ⟨by simp [otpIssueReply], by simp [otpIssueReply], Or.inl hopts⟩
      | cont s2 =>
        dsimp only
        have hopts := awbStage_opts s1 m now ext
        rw [ha] at hopts
        simp only [stageSession] at hopts
        split
        · exact ⟨by simp [verifyGateReply], by simp [verifyGateReply], Or.inl hopts⟩
        · have hd := dispatchStage_eligibility s2 as m ext
          have hord := dispatchStage_order_eq s2 as m ext
          refine ⟨?_, ?_, ?_⟩
          · intro h
            obtain ⟨o, ho, he⟩ := hd.1 h
            exact ⟨o, hord.trans ho, he⟩
          · intro h
            obtain ⟨o, ho, he⟩ := hd.2.1 h
            exact ⟨o, hord.trans ho, he⟩
          · rcases hd.2.2 with h1 | ⟨o, ho, he⟩
            · exact Or.inl (h1.trans hopts)
            · exact Or.inr (Or.inr ⟨o, hord.trans ho, he⟩)

/-- C7 counterexample: a reachable state in which session B is stored in
state `RESCHEDULE_OPTIONS` while its current order is the delivered,
non-reschedulable `ordC7B` — the no-tool-call fallback echoed the globally
shared assistant state left by session A. -/
theorem c7_counterexample :
    Reachable stC7
      ∧ (lookupSession stC7.sessions "B").map (fun s => s.conversationState)
          = some "RESCHEDULE_OPTIONS"
      ∧ (lookupSession stC7.sessions "B").map (fun s => s.currentOrder)
          = some (some ordC7B)
      ∧ canReschedule ordC7B = false :=
  ⟨Reachable.chat "B" "hello" 5 extC7n
    (Reachable.chat "B" "123456" 4 extC7a
      (Reachable.chat "B" "AWB444444" 3 extC7a
        (Reachable.chat "A" "reschedule" 2 extC7r
          (Reachable.chat "A" "123456" 1 extC7a
            (Reachable.chat "A" "AWB111111" 0 extC7a Reachable.init))))),
    by decide, by decide, by decide⟩

/-- Witness for C7 (amended) at a concrete verified session holding the
delivered order: small talk neither offers options nor changes the stored
list. -/
theorem c7_witness :
    ((processSession { freshSession 0 with
        currentOrder := some ordC7B, otpVerified := true }
        "INITIAL" "hello" 6 extC7n).2.2.requiresReschedule = some true →
      ∃ o, (processSession { freshSession 0 with
          currentOrder := some ordC7B, otpVerified := true }
          "INITIAL" "hello" 6 extC7n).1.currentOrder = some o
        ∧ canReschedule o = true) :=
  (c7_reschedule_eligibility { freshSession 0 with
    currentOrder := some ordC7B, otpVerified := true } "INITIAL" "hello" 6 extC7n).1

/-- C9 counterexample: with the resolver returning no tool call while the
shared conversation state is `ORDER_FOUND`, the reply is the generic
fallback but the state is NOT reset to `INITIAL` — it is preserved. -/
theorem c9_counterexample :
    (handleLlmRequest "hi" "ORDER_FOUND" none LlmCall.noToolCall).response
        = "How can I help with your delivery today?"
      ∧ (handleLlmRequest "hi" "ORDER_FOUND" none LlmCall.noToolCall).nextState
        = "ORDER_FOUND"
      ∧ "ORDER_FOUND" ≠ "INITIAL" := by
  decide

/-- C9 (amended). A resolver transport/parse failure returns the apologetic
fallback and resets the state to `INITIAL`; a resolver reply carrying no
tool call returns the generic fallback and preserves the current state; an
unrecognized tool name returns a generic prompt and resets to `INITIAL`. -/
theorem c9_resolver_fallback (input state : String) (order : Option Order) :
    handleLlmRequest input state order .failure =
        { response := "I'm having some trouble right now. Could you try again in a moment?",
          nextState := "INITIAL" }
      ∧ handleLlmRequest input state order .noToolCall =
        { response := "How can I help with your delivery today?", nextState := state }
      ∧ handleLlmRequest input state order .unknownTool =
        { response := "How can I assist with your delivery?", nextState := "INITIAL" } :=
  ⟨rfl, rfl, rfl⟩

/-- C10 (code bug record). The sweep that expires an idle session deletes
it from the session map and adds its id to the known-expired set — but the
same sweep's second loop then finds no live session for the id
(`!session`) and drops it from the set immediately, although less than 5
minutes have passed since the session's last activity.  A late message
afterwards silently creates a fresh session instead of receiving the
explicit expiry reply, contradicting the code's own comment ("Clean up
expired sessions tracking after 5 minutes") and the claim. -/
theorem c10_expired_set_dropped_early :
    200000 - sessC10.lastActive > SESSION_EXPIRATION
      ∧ 200000 - sessC10.lastActive < 5 * 60 * 1000
      ∧ (cleanupExpiredSessions stC10 200000).sessions = []
      ∧ (cleanupExpiredSessions stC10 200000).expiredSessions = []
      ∧ (chatStep (cleanupExpiredSessions stC10 200000) "X" "hi" 210000
          extNone).2.sessionExpired = none
      ∧ (lookupSession (chatStep (cleanupExpiredSessions stC10 200000) "X" "hi"
          210000 extNone).1.sessions "X").isSome = true := by
  decide

end DeliverEase
